import Mathlib

/-!
Shallow embedding of the HumanStress-Detection frontend signal-extraction
pipeline (KeyboardTracker, MouseTracker, StressVisualization,
StressDetectionApp) and verification of the specification claims about it.

Numeric conventions: JavaScript numbers are idealised as exact rationals
(`ℚ`) wherever the source only adds, multiplies and divides, and as real
numbers (`ℝ`) where `Math.sqrt` / `Math.acos` appear.  Timestamps are
milliseconds (`ℕ`), matching `Date` arithmetic in the source.
-/

namespace HumanStress

/-! ### Keyboard tracker (src/frontend/js/KeyboardTracker.js) -/

/-- Kind of a recorded keyboard event (`eventType` field: `keydown`/`keyup`). -/
inductive KKind where
  | down
  | up
deriving DecidableEq, Repr

/-- One entry of `this.keyEvents` as pushed by the `keydown`/`keyup` listeners. -/
structure KeyEv where
  key : String
  code : String := ""
  timestamp : ℕ
  eventType : KKind
  pressure : Option ℚ := none
deriving DecidableEq, Repr

/-- Mutable fields of a `KeyboardTracker` instance. -/
structure KeyboardState where
  keyEvents : List KeyEv := []
  sessionStartTime : Option ℕ := none
  isTracking : Bool := false
  lastKeyPressTime : Option ℕ := none
  backspaceCount : ℕ := 0
  totalKeyPresses : ℕ := 0
deriving DecidableEq, Repr

/-- The state built by the `KeyboardTracker` constructor. -/
def kbInit : KeyboardState := {}

/-- The `keydown` listener: records the event (with default pressure 1.0) and
updates the running counters; no-op unless tracking. -/
def kbKeydown (k : KeyboardState) (key code : String) (t : ℕ) : KeyboardState :=
  if k.isTracking then
    { k with
      keyEvents := k.keyEvents ++
        [{ key := key, code := code, timestamp := t, eventType := .down,
           pressure := some 1 }]
      totalKeyPresses := k.totalKeyPresses + 1
      backspaceCount :=
        if key = "Backspace" ∨ key = "Delete" then k.backspaceCount + 1
        else k.backspaceCount }
  else k

/-- The `keyup` listener: records the event; no counter updates. -/
def kbKeyup (k : KeyboardState) (key code : String) (t : ℕ) : KeyboardState :=
  if k.isTracking then
    { k with
      keyEvents := k.keyEvents ++
        [{ key := key, code := code, timestamp := t, eventType := .up }] }
  else k

/-- `KeyboardTracker.startTracking()`: sets the flag, records a session start
time and clears the buffer and counters. -/
def kbStartTracking (k : KeyboardState) (t : ℕ) : KeyboardState :=
  { k with
    isTracking := true
    sessionStartTime := some t
    keyEvents := []
    backspaceCount := 0
    totalKeyPresses := 0 }

/-- `KeyboardTracker.stopTracking()`. -/
def kbStopTracking (k : KeyboardState) : KeyboardState :=
  { k with isTracking := false }

/-- `KeyboardTracker.reset()`. -/
def kbReset (k : KeyboardState) : KeyboardState :=
  { k with
    keyEvents := []
    backspaceCount := 0
    totalKeyPresses := 0
    lastKeyPressTime := none }

/-- The `keydown` events currently in the buffer
(`this.keyEvents.filter(e => e.eventType === 'keydown')`). -/
def kbDowns (k : KeyboardState) : List KeyEv :=
  k.keyEvents.filter (fun e => e.eventType = .down)

/-- Timestamp of the first element of a key-event list (`events[0].timestamp`),
`none` on an empty list. -/
def firstTs (l : List KeyEv) : Option ℕ :=
  l.head?.map (·.timestamp)

/-- Timestamp of the last element (`events[events.length - 1].timestamp`). -/
def lastTs (l : List KeyEv) : Option ℕ :=
  l.getLast?.map (·.timestamp)

/-- `KeyboardTracker.calculateTypingSpeed()`.  Times are milliseconds; the
result is the rounded words-per-minute figure. -/
def calculateTypingSpeed (k : KeyboardState) : ℤ :=
  if k.keyEvents.length < 2 then 0
  else
    let keyDownEvents := kbDowns k
    if keyDownEvents.length < 2 then 0
    else
      let firstEvent : ℚ := ((firstTs keyDownEvents).getD 0 : ℕ)
      let lastEvent : ℚ := ((lastTs keyDownEvents).getD 0 : ℕ)
      let timeDiff : ℚ := (lastEvent - firstEvent) / 1000
      if timeDiff = 0 then 0
      else
        let charsPerMinute : ℚ := ((keyDownEvents.length : ℚ) / timeDiff) * 60
        let wpm : ℚ := charsPerMinute / 5
        round wpm

/-- `KeyboardTracker.calculateKeyPressVariance()`. -/
def calculateKeyPressVariance (k : KeyboardState) : ℚ :=
  if k.keyEvents.length < 2 then 0
  else
    let backspaceRatio : ℚ := (k.backspaceCount : ℚ) / max (k.totalKeyPresses : ℚ) 1
    backspaceRatio * 0.3

/-- The `backspaceRatio` computed in `KeyboardTracker.getStats()`. -/
def kbBackspaceRatio (k : KeyboardState) : ℚ :=
  (k.backspaceCount : ℚ) / max (k.totalKeyPresses : ℚ) 1

/-! Spec-side definitions for the keyboard claims. -/

/-- The time span, in seconds, between the first and last event of a list. -/
def downSpan (downs : List KeyEv) : ℚ :=
  (((lastTs downs).getD 0 : ℕ) - (((firstTs downs).getD 0 : ℕ) : ℚ)) / 1000

/-- Modelled from the spec: `typingSpeedWpm()` as §4.2 words it — a function of
the ordered `down` events alone: 0 if fewer than two or if the span is zero,
otherwise `round((count / span_seconds) * 60 / 5)`. -/
def specTypingSpeedWpm (downs : List KeyEv) : ℤ :=
  if downs.length < 2 then 0
  else if downSpan downs = 0 then 0
  else round (((downs.length : ℚ) / downSpan downs) * 60 / 5)

/-- Modelled from the spec: `keyPressVarianceProxy()` as C3 words it —
`(backspaceCount / max(totalKeyPresses, 1)) * 0.3`, no other case split. -/
def specKeyPressVarianceProxy (backspaceCount totalKeyPresses : ℕ) : ℚ :=
  ((backspaceCount : ℚ) / max (totalKeyPresses : ℚ) 1) * 0.3

/-! ### Mouse tracker (src/frontend/js/mouseTracker.js)

Coordinates are exact rationals; the Euclidean distance and the angle
computation live in `ℝ` because the source calls `Math.sqrt` / `Math.acos`. -/

/-- Kind of a recorded mouse event (`eventType` field).  The `mouseup`
listener sends a `release` record over the socket but never pushes it into
`this.mouseEvents`, so only these three kinds occur in the buffer. -/
inductive MEvKind where
  | move
  | click
  | scroll
deriving DecidableEq, Repr

/-- One entry of `this.mouseEvents`. -/
structure MouseEv where
  eventType : MEvKind
  x : ℚ := 0
  y : ℚ := 0
  button : ℕ := 0
  timestamp : ℕ := 0
  pressure : Option ℚ := none
  movementSpeed : Option ℝ := none
  deltaX : ℚ := 0
  deltaY : ℚ := 0

/-- Mutable fields of a `MouseTracker` instance. -/
structure MouseState where
  mouseEvents : List MouseEv := []
  isTracking : Bool := false
  lastMousePosition : ℚ × ℚ := (0, 0)
  lastMouseMoveTime : Option ℕ := none
  clickCount : ℕ := 0
  totalDistance : ℝ := 0
  simulatedPressure : ℚ := 1
  pressureVariation : ℚ := 0

/-- The state built by the `MouseTracker` constructor. -/
noncomputable def mouseInit : MouseState := {}

/-- Euclidean length of the displacement `(dx, dy)`
(`Math.sqrt(dx * dx + dy * dy)`). -/
noncomputable def euclid (dx dy : ℚ) : ℝ :=
  Real.sqrt ((dx * dx + dy * dy : ℚ))

/-- `MouseTracker.calculateMovementSpeed(event, currentTime)`: pixels per
second since the previous move; 0 when there is no previous move or no time
has elapsed. -/
noncomputable def calculateMovementSpeed (s : MouseState) (x y : ℚ) (t : ℕ) : ℝ :=
  match s.lastMouseMoveTime with
  | none => 0
  | some t0 =>
    let timeDiff : ℚ := ((t : ℚ) - (t0 : ℚ)) / 1000
    if timeDiff = 0 then 0
    else euclid (x - s.lastMousePosition.1) (y - s.lastMousePosition.2) / (timeDiff : ℝ)

/-- The `mousemove` listener: push the move event, add the Euclidean distance
from `lastMousePosition` to `totalDistance` unless that position is exactly
`(0, 0)`, then update `lastMousePosition` / `lastMouseMoveTime`; no-op unless
tracking. -/
noncomputable def recordMove (s : MouseState) (x y : ℚ) (t : ℕ) : MouseState :=
  if s.isTracking then
    let movementData : MouseEv :=
      { eventType := .move, x := x, y := y, timestamp := t,
        movementSpeed := some (calculateMovementSpeed s x y t) }
    let s₁ := { s with mouseEvents := s.mouseEvents ++ [movementData] }
    let s₂ :=
      if s₁.lastMousePosition.1 ≠ 0 ∨ s₁.lastMousePosition.2 ≠ 0 then
        { s₁ with totalDistance := s₁.totalDistance +
            euclid (x - s₁.lastMousePosition.1) (y - s₁.lastMousePosition.2) }
      else s₁
    { s₂ with lastMousePosition := (x, y), lastMouseMoveTime := some t }
  else s

/-- The `mousedown` listener: simulate a pressure reading from the last known
stress level (`currentStress`, 0–4) and a random sample `rand` in `[0, 1)`,
push the click event and bump `clickCount`; no-op unless tracking. -/
noncomputable def recordClick (s : MouseState) (x y : ℚ) (button : ℕ) (t : ℕ)
    (currentStress rand : ℚ) : MouseState :=
  if s.isTracking then
    let pressureVariation : ℚ := 0.1 + currentStress / 4 * 0.3
    let simulatedPressure : ℚ := 0.8 + rand * pressureVariation
    { s with
      pressureVariation := pressureVariation
      simulatedPressure := simulatedPressure
      mouseEvents := s.mouseEvents ++
        [{ eventType := .click, x := x, y := y, button := button, timestamp := t,
           pressure := some simulatedPressure }]
      clickCount := s.clickCount + 1 }
  else s

/-- The `wheel` listener: push the scroll event; no-op unless tracking. -/
noncomputable def recordWheel (s : MouseState) (dx dy : ℚ) (t : ℕ) : MouseState :=
  if s.isTracking then
    { s with mouseEvents := s.mouseEvents ++
        [{ eventType := .scroll, deltaX := dx, deltaY := dy, timestamp := t }] }
  else s

/-- `MouseTracker.startTracking()`: note it clears the buffer and the running
counters but leaves `lastMousePosition` / `lastMouseMoveTime` untouched. -/
noncomputable def mouseStartTracking (s : MouseState) : MouseState :=
  { s with isTracking := true, mouseEvents := [], clickCount := 0, totalDistance := 0 }

/-- `MouseTracker.stopTracking()`. -/
noncomputable def mouseStopTracking (s : MouseState) : MouseState :=
  { s with isTracking := false }

/-- `MouseTracker.reset()`. -/
noncomputable def mouseReset (s : MouseState) : MouseState :=
  { s with
    mouseEvents := []
    clickCount := 0
    totalDistance := 0
    lastMousePosition := (0, 0)
    lastMouseMoveTime := none }

/-- The `move` events currently in the buffer. -/
def mouseMoves (events : List MouseEv) : List MouseEv :=
  events.filter (fun e => e.eventType = .move)

/-- The angle-change list built by the loop in
`calculateMouseRandomness`: for each consecutive triple of move positions,
the angle `acos(clamp(dot / (mag1 * mag2), -1, 1))` between the two
displacement vectors, with triples skipped when either vector has zero
magnitude (the source tests `mag1 > 0 && mag2 > 0` on the square roots, which
for nonnegative radicands is equivalent to positivity of the squared
magnitudes tested here). -/
noncomputable def angleChanges : List (ℚ × ℚ) → List ℝ
  | p₀ :: p₁ :: p₂ :: rest =>
    let dx1 := p₁.1 - p₀.1
    let dy1 := p₁.2 - p₀.2
    let dx2 := p₂.1 - p₁.1
    let dy2 := p₂.2 - p₁.2
    let dot : ℚ := dx1 * dx2 + dy1 * dy2
    let mag1sq : ℚ := dx1 * dx1 + dy1 * dy1
    let mag2sq : ℚ := dx2 * dx2 + dy2 * dy2
    (if 0 < mag1sq ∧ 0 < mag2sq then
      let cosAngle : ℝ := (dot : ℝ) / (Real.sqrt (mag1sq : ℚ) * Real.sqrt (mag2sq : ℚ))
      let clampedCos : ℝ := max (-1) (min 1 cosAngle)
      [Real.arccos clampedCos]
    else []) ++ angleChanges (p₁ :: p₂ :: rest)
  | _ => []

/-- Population variance of a list of reals, as computed by the two `reduce`
folds in the source (`mean`, then mean of squared deviations). -/
noncomputable def listVariance (l : List ℝ) : ℝ :=
  let mean := l.sum / l.length
  (l.map (fun b => (b - mean) ^ 2)).sum / l.length

/-- `MouseTracker.calculateMouseRandomness()`. -/
noncomputable def calculateMouseRandomness (events : List MouseEv) : ℝ :=
  if events.length < 3 then 0.1
  else
    let moveEvents := mouseMoves events
    if moveEvents.length < 3 then 0.1
    else
      let angles := angleChanges (moveEvents.map fun e => (e.x, e.y))
      if angles.length = 0 then 0.1
      else
        let variance := listVariance angles
        min (variance * 10) 1

/-- Whether `e.pressure` is truthy in JavaScript: present and nonzero. -/
def pressureTruthy (e : MouseEv) : Bool :=
  match e.pressure with
  | some q => decide (q ≠ 0)
  | none => false

/-- `MouseTracker.calculateAveragePressure()`: mean of the (truthy) pressures
over click events, 1.0 when there are none. -/
def calculateAveragePressure (events : List MouseEv) : ℚ :=
  let clickEvents := events.filter (fun e => e.eventType = .click ∧ pressureTruthy e)
  if clickEvents.length = 0 then 1
  else
    let totalPressure : ℚ := (clickEvents.map (fun e => e.pressure.getD 0)).sum
    totalPressure / clickEvents.length

/-- `MouseTracker.calculateClickFrequency()`: clicks per second across the
click events in the buffer, 0 with fewer than two clicks or zero span. -/
def calculateClickFrequency (events : List MouseEv) : ℚ :=
  if events.length < 2 then 0
  else
    let clickEvents := events.filter (fun e => e.eventType = .click)
    if clickEvents.length < 2 then 0
    else
      let firstClick : ℚ := ((clickEvents.head?.map (·.timestamp)).getD 0 : ℕ)
      let lastClick : ℚ := ((clickEvents.getLast?.map (·.timestamp)).getD 0 : ℕ)
      let timeDiff : ℚ := (lastClick - firstClick) / 1000
      if timeDiff = 0 then 0
      else (clickEvents.length : ℚ) / timeDiff

/-- Processing a whole sequence of `mousemove` notifications. -/
noncomputable def processMoves (s : MouseState) : List (ℚ × ℚ × ℕ) → MouseState
  | [] => s
  | (x, y, t) :: rest => processMoves (recordMove s x y t) rest

/-! ### Heatmap point buffer (src/frontend/js/visualization.js) -/

/-- One entry of `StressVisualization.mousePoints`. -/
structure VizPoint where
  x : ℚ
  y : ℚ
  time : ℕ
deriving DecidableEq, Repr

/-- `StressVisualization.maxPoints`. -/
def maxPoints : ℕ := 1000

/-- `StressVisualization.addMousePoint(x, y)`: convert to canvas coordinates,
push, and `shift()` the oldest point once the buffer exceeds `maxPoints`.
`rectLeft` / `rectTop` are the canvas bounding-rect offsets. -/
def addMousePoint (pts : List VizPoint) (x y rectLeft rectTop : ℚ) (time : ℕ) :
    List VizPoint :=
  let pts' := pts ++ [{ x := x - rectLeft, y := y - rectTop, time := time }]
  if maxPoints < pts'.length then pts'.tail else pts'

/-- Adding a whole sequence of already-converted points (offsets 0). -/
def addMousePoints (pts : List VizPoint) : List VizPoint → List VizPoint
  | [] => pts
  | p :: rest => addMousePoints (addMousePoint pts p.x p.y 0 0 p.time) rest

/-! ### Application state machine (src/unnamed/part_000, `StressDetectionApp`) -/

/-- The app-level fields relevant to the tracking lifecycle, together with the
two settings checkboxes the start handler consults. -/
structure AppState where
  isMonitoring : Bool := false
  sessionStartTime : Option ℕ := none
  currentStressLevel : ℚ := 0
  keyboard : KeyboardState := kbInit
  mouse : MouseState := mouseInit
  trackKeyboard : Bool := true
  trackMouse : Bool := true

/-- The state built by the `StressDetectionApp` constructor (checkboxes in
their default checked state). -/
noncomputable def appInit : AppState := {}

/-- `StressDetectionApp.startMonitoring()`: no-op when already monitoring;
otherwise becomes monitoring and calls `startTracking()` on each tracker whose
checkbox is checked.  `t` is the session start instant. -/
noncomputable def startMonitoring (s : AppState) (t : ℕ) : AppState :=
  if s.isMonitoring then s
  else
    { s with
      isMonitoring := true
      sessionStartTime := some t
      keyboard := if s.trackKeyboard then kbStartTracking s.keyboard t else s.keyboard
      mouse := if s.trackMouse then mouseStartTracking s.mouse else s.mouse }

/-- `StressDetectionApp.pauseMonitoring()`: no-op unless monitoring; otherwise
stops both trackers, preserving their buffers and counters. -/
noncomputable def pauseMonitoring (s : AppState) : AppState :=
  if s.isMonitoring then
    { s with
      isMonitoring := false
      keyboard := kbStopTracking s.keyboard
      mouse := mouseStopTracking s.mouse }
  else s

/-- `StressDetectionApp.resetSession()`: resets and stops both trackers. -/
noncomputable def resetSession (s : AppState) : AppState :=
  { s with
    isMonitoring := false
    keyboard := kbStopTracking (kbReset s.keyboard)
    mouse := mouseStopTracking (mouseReset s.mouse) }

/-- A `keydown` delivered to the app: handled entirely by the keyboard
tracker's listener. -/
noncomputable def appKeydown (s : AppState) (key code : String) (t : ℕ) : AppState :=
  { s with keyboard := kbKeydown s.keyboard key code t }

/-! ### Spec-side definitions for the mouse claims -/

/-- Modelled from the spec: C4's stated total — the sum of Euclidean distances
between each pair of consecutive move positions, the first event contributing
nothing. -/
noncomputable def specConsecDistSum : List (ℚ × ℚ) → ℝ
  | p :: q :: rest => euclid (q.1 - p.1) (q.2 - p.2) + specConsecDistSum (q :: rest)
  | _ => 0

/-- The distance total the code actually accumulates: starting from stored
position `prev`, each segment contributes its Euclidean length unless its
starting position is exactly `(0, 0)`. -/
noncomputable def guardedDistSum (prev : ℚ × ℚ) : List (ℚ × ℚ) → ℝ
  | [] => 0
  | p :: rest =>
    (if prev.1 ≠ 0 ∨ prev.2 ≠ 0 then euclid (p.1 - prev.1) (p.2 - prev.2) else 0) +
      guardedDistSum p rest

/-- Modelled from the spec: C8's `averagePressure()` — the mean of the
pressures over the click events that carry one, 1.0 when none does. -/
def specAveragePressure (events : List MouseEv) : ℚ :=
  let carrying := events.filter (fun e => e.eventType = .click ∧ e.pressure ≠ none)
  if carrying.length = 0 then 1
  else (carrying.map (fun e => e.pressure.getD 0)).sum / carrying.length

/-! ### Concrete states used by scenarios, counterexamples and witnesses -/

/-- Keyboard buffer with five `down` events at t = 0, 200, 400, 600, 800 ms
(the spec's WPM scenario). -/
def kb5 : KeyboardState :=
  { keyEvents :=
      [{ key := "a", timestamp := 0, eventType := .down, pressure := some 1 },
       { key := "b", timestamp := 200, eventType := .down, pressure := some 1 },
       { key := "c", timestamp := 400, eventType := .down, pressure := some 1 },
       { key := "d", timestamp := 600, eventType := .down, pressure := some 1 },
       { key := "e", timestamp := 800, eventType := .down, pressure := some 1 }]
    isTracking := true
    totalKeyPresses := 5 }

/-- Two `down` events spanning one second. -/
def kbTwoDowns : KeyboardState :=
  { keyEvents :=
      [{ key := "a", timestamp := 0, eventType := .down, pressure := some 1 },
       { key := "b", timestamp := 1000, eventType := .down, pressure := some 1 }]
    isTracking := true
    totalKeyPresses := 2 }

/-- Three `down` events over the same one-second span as `kbTwoDowns`. -/
def kbThreeDowns : KeyboardState :=
  { keyEvents :=
      [{ key := "a", timestamp := 0, eventType := .down, pressure := some 1 },
       { key := "b", timestamp := 500, eventType := .down, pressure := some 1 },
       { key := "c", timestamp := 1000, eventType := .down, pressure := some 1 }]
    isTracking := true
    totalKeyPresses := 3 }

/-- The tracker state after starting fresh and pressing Backspace once:
one buffered event, `totalKeyPresses = 1`, `backspaceCount = 1`. -/
def kbOneBackspace : KeyboardState :=
  kbKeydown (kbStartTracking kbInit 0) "Backspace" "Backspace" 0

/-- A fresh session after a Backspace press and its release: two buffered
events, one key press, one backspace. -/
def kbBackspaceUpDown : KeyboardState :=
  kbKeyup kbOneBackspace "Backspace" "Backspace" 5

/-- Three collinear move events at (0,0), (10,0), (20,0) (the spec's
zero-variance scenario). -/
def collinear3 : List MouseEv :=
  [{ eventType := .move, x := 0, y := 0, timestamp := 0 },
   { eventType := .move, x := 10, y := 0, timestamp := 10 },
   { eventType := .move, x := 20, y := 0, timestamp := 20 }]

/-- Three move events all at the same position (5,5). -/
def samePos3 : List MouseEv :=
  [{ eventType := .move, x := 5, y := 5, timestamp := 0 },
   { eventType := .move, x := 5, y := 5, timestamp := 10 },
   { eventType := .move, x := 5, y := 5, timestamp := 20 }]

/-- A buffer with two clicks carrying pressures 9/10 and 7/10, and a move. -/
def twoClicks : List MouseEv :=
  [{ eventType := .click, x := 1, y := 1, timestamp := 0, pressure := some (9 / 10) },
   { eventType := .move, x := 2, y := 2, timestamp := 5 },
   { eventType := .click, x := 3, y := 3, timestamp := 10, pressure := some (7 / 10) }]

/-- A freshly started mouse tracker. -/
noncomputable def mouseStarted : MouseState := mouseStartTracking mouseInit

/-- 1001 move notifications at position (1,1). -/
def moves1001 : List (ℚ × ℚ × ℕ) := List.replicate 1001 (1, 1, 0)

/-- The move sequence (10,0), (0,0), (10,0): its second event lands exactly
at the origin. -/
def movesThroughOrigin : List (ℚ × ℚ × ℕ) := [(10, 0, 0), (0, 0, 1), (10, 0, 2)]

/-- The positions of `movesThroughOrigin`. -/
def coordsThroughOrigin : List (ℚ × ℚ) := [(10, 0), (0, 0), (10, 0)]

/-- A heatmap buffer filled to capacity. -/
def vizFull : List VizPoint := List.replicate maxPoints { x := 0, y := 0, time := 0 }

/-- App trace for the pause/resume claim: start monitoring, one keydown,
pause. -/
noncomputable def appPaused : AppState :=
  pauseMonitoring (appKeydown (startMonitoring appInit 0) "a" "KeyA" 100)

/-- The same trace continued with a second Start press (resume from Paused). -/
noncomputable def appResumed : AppState := startMonitoring appPaused 200

/-! ### Helper lemmas -/

/-- The two `calculateTypingSpeed` guards collapse to the spec's single guard
on the `down`-event count: a buffer with fewer than two events has fewer than
two `down` events. -/
theorem calculateTypingSpeed_eq_spec (k : KeyboardState) :
    calculateTypingSpeed k = specTypingSpeedWpm (kbDowns k) := by
  by_cases h2 : k.keyEvents.length < 2
  · have hd : (kbDowns k).length < 2 :=
      lt_of_le_of_lt (List.length_filter_le _ _) h2
    simp [calculateTypingSpeed, specTypingSpeedWpm, h2, hd]
  · rw [calculateTypingSpeed, if_neg h2, specTypingSpeedWpm]
    rfl

/-- The span is nonnegative whenever the first `down` timestamp does not
exceed the last one. -/
theorem downSpan_nonneg (downs : List KeyEv)
    (h : (firstTs downs).getD 0 ≤ (lastTs downs).getD 0) :
    0 ≤ downSpan downs := by
  unfold downSpan
  have hc : ((((firstTs downs).getD 0 : ℕ) : ℚ)) ≤ (((lastTs downs).getD 0 : ℕ) : ℚ) := by
    exact_mod_cast h
  have hnum : (0 : ℚ) ≤ (((lastTs downs).getD 0 : ℕ) : ℚ) -
      (((firstTs downs).getD 0 : ℕ) : ℚ) := by linarith
  exact div_nonneg hnum (by norm_num)

/-- `specTypingSpeedWpm` is nonnegative whenever the first `down` timestamp
does not exceed the last one. -/
theorem specTypingSpeedWpm_nonneg (downs : List KeyEv)
    (h : (firstTs downs).getD 0 ≤ (lastTs downs).getD 0) :
    0 ≤ specTypingSpeedWpm downs := by
  unfold specTypingSpeedWpm
  split_ifs with h1 hspan
  · rfl
  · rfl
  · have hspan' : 0 < downSpan downs :=
      lt_of_le_of_ne (downSpan_nonneg downs h) (Ne.symm hspan)
    rw [round_eq]
    refine Int.floor_nonneg.mpr ?_
    have harg : (0 : ℚ) ≤ (downs.length : ℚ) / downSpan downs * 60 / 5 := by positivity
    linarith

/-- With the first and last `down` timestamps held fixed, the spec's WPM value
is monotone in the number of `down` events. -/
theorem specTypingSpeedWpm_mono (d₁ d₂ : List KeyEv)
    (hfirst : firstTs d₁ = firstTs d₂) (hlast : lastTs d₁ = lastTs d₂)
    (hcount : d₁.length ≤ d₂.length)
    (horder : (firstTs d₂).getD 0 ≤ (lastTs d₂).getD 0) :
    specTypingSpeedWpm d₁ ≤ specTypingSpeedWpm d₂ := by
  have hspan : downSpan d₁ = downSpan d₂ := by
    unfold downSpan; rw [hfirst, hlast]
  by_cases h1 : d₁.length < 2
  · have hL : specTypingSpeedWpm d₁ = 0 := by rw [specTypingSpeedWpm, if_pos h1]
    rw [hL]; exact specTypingSpeedWpm_nonneg d₂ horder
  · have h2 : ¬ d₂.length < 2 := by omega
    by_cases hz : downSpan d₂ = 0
    · have hL : specTypingSpeedWpm d₁ = 0 := by
        rw [specTypingSpeedWpm, if_neg h1, hspan, if_pos hz]
      rw [hL]; exact specTypingSpeedWpm_nonneg d₂ horder
    · have hz1 : ¬ downSpan d₁ = 0 := by rw [hspan]; exact hz
      have hpos : 0 < downSpan d₂ :=
        lt_of_le_of_ne (downSpan_nonneg d₂ horder) (Ne.symm hz)
      rw [specTypingSpeedWpm, if_neg h1, if_neg hz1, specTypingSpeedWpm, if_neg h2,
        if_neg hz, hspan, round_eq, round_eq]
      apply Int.floor_mono
      have hc : (d₁.length : ℚ) ≤ (d₂.length : ℚ) := by exact_mod_cast hcount
      gcongr

/-! ### Claim theorems -/

/-- Claim C3 (counterexample): after a single Backspace press the buffer holds
one event, so `calculateKeyPressVariance` returns 0, while the claimed formula
`backspaceRatio * 0.3` gives 3/10 — the claim's "no other case distinction" is
false. -/
theorem C3_keyPressVariance_guard_cex :
    calculateKeyPressVariance kbOneBackspace = 0 ∧
    specKeyPressVarianceProxy kbOneBackspace.backspaceCount
      kbOneBackspace.totalKeyPresses = 3 / 10 ∧
    (0 : ℚ) ≠ 3 / 10 :=
  ⟨by decide,
   by norm_num [specKeyPressVarianceProxy, kbOneBackspace, kbKeydown,
     kbStartTracking, kbInit],
   by norm_num⟩

/-- Claim C3 (amended): `keyPressVarianceProxy()` returns
`(backspaceCount / max(totalKeyPresses, 1)) * 0.3` whenever the key-event
buffer holds at least two events, and 0 when it holds fewer. -/
theorem C3_keyPressVariance_formula (k : KeyboardState) :
    (2 ≤ k.keyEvents.length →
      calculateKeyPressVariance k =
        specKeyPressVarianceProxy k.backspaceCount k.totalKeyPresses) ∧
    (k.keyEvents.length < 2 → calculateKeyPressVariance k = 0) := by
  constructor
  · intro h
    rw [calculateKeyPressVariance, if_neg (by omega)]
    rfl
  · intro h
    rw [calculateKeyPressVariance, if_pos h]

/-- Witness for C3: a fresh session with a Backspace press and release has two
buffered events, and the proxy evaluates to 3/10 there. -/
theorem C3_keyPressVariance_formula_witness :
    (2 ≤ kbBackspaceUpDown.keyEvents.length ∧
      calculateKeyPressVariance kbBackspaceUpDown =
        specKeyPressVarianceProxy kbBackspaceUpDown.backspaceCount
          kbBackspaceUpDown.totalKeyPresses) ∧
    calculateKeyPressVariance kbBackspaceUpDown = 3 / 10 :=
  ⟨⟨by decide, (C3_keyPressVariance_formula kbBackspaceUpDown).1 (by decide)⟩,
   by norm_num [calculateKeyPressVariance, kbBackspaceUpDown, kbOneBackspace,
     kbKeyup, kbKeydown, kbStartTracking, kbInit]⟩

/-- Claim C5 (confirmed): `calculateTypingSpeed` returns 0 when fewer than two
`down` events are buffered or their span is zero, and otherwise
`round((downCount / span_seconds) * 60 / 5)`; five presses at t = 0, 200, 400,
600, 800 ms yield exactly 75 WPM. -/
theorem C5_typingSpeed_formula :
    (∀ k : KeyboardState, calculateTypingSpeed k = specTypingSpeedWpm (kbDowns k)) ∧
    calculateTypingSpeed kb5 = 75 :=
  ⟨calculateTypingSpeed_eq_spec,
   by norm_num [calculateTypingSpeed, kb5, kbDowns, firstTs, lastTs, List.filter]⟩

/-- Claim C7 (confirmed): for a fixed first and last `down` timestamp (with
first ≤ last), the WPM figure is monotonically non-decreasing in the number of
buffered `down` events. -/
theorem C7_typingSpeed_monotone (k₁ k₂ : KeyboardState)
    (hfirst : firstTs (kbDowns k₁) = firstTs (kbDowns k₂))
    (hlast : lastTs (kbDowns k₁) = lastTs (kbDowns k₂))
    (hcount : (kbDowns k₁).length ≤ (kbDowns k₂).length)
    (horder : (firstTs (kbDowns k₂)).getD 0 ≤ (lastTs (kbDowns k₂)).getD 0) :
    calculateTypingSpeed k₁ ≤ calculateTypingSpeed k₂ := by
  rw [calculateTypingSpeed_eq_spec, calculateTypingSpeed_eq_spec]
  exact specTypingSpeedWpm_mono _ _ hfirst hlast hcount horder

/-- Recording a move never changes the tracking flag. -/
theorem recordMove_isTracking (s : MouseState) (x y : ℚ) (t : ℕ) :
    (recordMove s x y t).isTracking = s.isTracking := by
  dsimp only [recordMove]
  split
  · split <;> rfl
  · rfl

/-- While tracking, a move appends exactly one event to the buffer. -/
theorem recordMove_mouseEvents (s : MouseState) (x y : ℚ) (t : ℕ)
    (h : s.isTracking = true) :
    (recordMove s x y t).mouseEvents = s.mouseEvents ++
      [{ eventType := .move, x := x, y := y, timestamp := t,
         movementSpeed := some (calculateMovementSpeed s x y t) }] := by
  dsimp only [recordMove]
  rw [if_pos h]
  split <;> rfl

/-- While tracking, a move overwrites the stored last position. -/
theorem recordMove_lastPos (s : MouseState) (x y : ℚ) (t : ℕ)
    (h : s.isTracking = true) :
    (recordMove s x y t).lastMousePosition = (x, y) := by
  dsimp only [recordMove]
  rw [if_pos h]

/-- While tracking, a move adds the segment length to `totalDistance` exactly
when the stored position differs from `(0, 0)`. -/
theorem recordMove_totalDistance (s : MouseState) (x y : ℚ) (t : ℕ)
    (h : s.isTracking = true) :
    (recordMove s x y t).totalDistance = s.totalDistance +
      (if s.lastMousePosition.1 ≠ 0 ∨ s.lastMousePosition.2 ≠ 0 then
        euclid (x - s.lastMousePosition.1) (y - s.lastMousePosition.2) else 0) := by
  dsimp only [recordMove]
  rw [if_pos h]
  split_ifs with hp
  · rfl
  · exact (add_zero _).symm

/-- `processMoves` preserves the tracking flag. -/
theorem processMoves_isTracking (l : List (ℚ × ℚ × ℕ)) :
    ∀ s : MouseState, (processMoves s l).isTracking = s.isTracking := by
  induction l with
  | nil => intro s; rfl
  | cons p rest ih =>
    intro s
    obtain ⟨x, y, t⟩ := p
    rw [processMoves, ih, recordMove_isTracking]

/-- While tracking, the pointer buffer grows by one event per move — it is
never trimmed. -/
theorem processMoves_length (l : List (ℚ × ℚ × ℕ)) :
    ∀ s : MouseState, s.isTracking = true →
      (processMoves s l).mouseEvents.length = s.mouseEvents.length + l.length := by
  induction l with
  | nil => intro s _; simp [processMoves]
  | cons p rest ih =>
    intro s h
    obtain ⟨x, y, t⟩ := p
    rw [processMoves, ih _ (by rw [recordMove_isTracking]; exact h),
      recordMove_mouseEvents s x y t h]
    simp
    try omega

/-- Running total of a move sequence: each segment contributes its Euclidean
length except those starting at a stored position of exactly `(0, 0)`. -/
theorem processMoves_totalDistance (l : List (ℚ × ℚ × ℕ)) :
    ∀ s : MouseState, s.isTracking = true →
      (processMoves s l).totalDistance =
        s.totalDistance + guardedDistSum s.lastMousePosition (l.map fun p => (p.1, p.2.1)) := by
  induction l with
  | nil => intro s _; simp [processMoves, guardedDistSum]
  | cons p rest ih =>
    intro s h
    obtain ⟨x, y, t⟩ := p
    rw [processMoves, ih _ (by rw [recordMove_isTracking]; exact h),
      recordMove_totalDistance s x y t h, recordMove_lastPos s x y t h]
    simp only [List.map_cons, guardedDistSum]
    ring

/-- Exact value of a Euclidean segment length with rational data. -/
theorem euclid_eval (dx dy r : ℚ) (h : dx * dx + dy * dy = r * r) (hr : 0 ≤ r) :
    euclid dx dy = r := by
  unfold euclid
  rw [h]
  push_cast
  rw [show ((r : ℝ) * r) = (r : ℝ) ^ 2 by ring]
  exact Real.sqrt_sq (by exact_mod_cast hr)

/-- Length of the heatmap buffer after one `addMousePoint`. -/
theorem addMousePoint_length (pts : List VizPoint) (x y rl rt : ℚ) (time : ℕ)
    (h : pts.length ≤ maxPoints) :
    (addMousePoint pts x y rl rt time).length = min (pts.length + 1) maxPoints := by
  simp only [addMousePoint, maxPoints] at *
  split_ifs with hgt <;> simp at hgt ⊢ <;> omega

/-- Length of the heatmap buffer after a whole sequence of points. -/
theorem addMousePoints_length (l : List VizPoint) :
    ∀ pts : List VizPoint, pts.length ≤ maxPoints →
      (addMousePoints pts l).length = min (pts.length + l.length) maxPoints := by
  induction l with
  | nil =>
    intro pts h
    unfold maxPoints at *
    simp [addMousePoints]
    omega
  | cons p rest ih =>
    intro pts h
    rw [addMousePoints, ih _ (by rw [addMousePoint_length _ _ _ _ _ _ h]; omega),
      addMousePoint_length _ _ _ _ _ _ h]
    unfold maxPoints
    simp
    omega

/-- Claim C1 (counterexample): recording 1001 move events into a freshly
started tracker leaves 1001 events in `mouseEvents` — the tracker's pointer
event buffer has no capacity bound and evicts nothing. -/
theorem C1_pointer_buffer_unbounded_cex :
    (processMoves mouseStarted moves1001).mouseEvents.length = 1001 ∧
    ¬ ((processMoves mouseStarted moves1001).mouseEvents.length ≤ 1000) := by
  have h : (processMoves mouseStarted moves1001).mouseEvents.length = 1001 := by
    rw [processMoves_length moves1001 mouseStarted rfl]
    have h1 : moves1001.length = 1001 := by rw [moves1001, List.length_replicate]
    have h2 : mouseStarted.mouseEvents.length = 0 := rfl
    omega
  exact ⟨h, by omega⟩

/-- Claim C1 (amended): the 1000-capacity FIFO bound holds for the
visualization's heatmap point buffer, not the tracker's event buffer: after
any sequence of added points the heatmap buffer holds `min n 1000` points, and
an insertion into a full buffer drops exactly the oldest point. -/
theorem C1_heatmap_buffer_bounded_fifo :
    (∀ l : List VizPoint, (addMousePoints [] l).length = min l.length maxPoints) ∧
    (∀ (pts : List VizPoint) (x y rl rt : ℚ) (time : ℕ), pts.length = maxPoints →
      addMousePoint pts x y rl rt time =
        pts.tail ++ [{ x := x - rl, y := y - rt, time := time }]) := by
  constructor
  · intro l
    have h := addMousePoints_length l [] (by simp)
    simpa using h
  · intro pts x y rl rt time h
    cases pts with
    | nil => simp [maxPoints] at h
    | cons a as =>
      simp only [addMousePoint]
      rw [if_pos (by simp at h ⊢; omega)]
      simp

/-- Witness for C1 (amended): inserting into a buffer holding exactly 1000
points evicts the oldest one, and two insertions into an empty buffer leave
two points. -/
theorem C1_heatmap_buffer_bounded_fifo_witness :
    vizFull.length = maxPoints ∧
    addMousePoint vizFull 5 6 0 0 7 =
      vizFull.tail ++ [{ x := 5 - 0, y := 6 - 0, time := 7 }] ∧
    (addMousePoints [] [{ x := 1, y := 1, time := 0 }, { x := 2, y := 2, time := 0 }]).length =
      min 2 maxPoints := by
  refine ⟨by simp [vizFull],
    C1_heatmap_buffer_bounded_fifo.2 vizFull 5 6 0 0 7 (by simp [vizFull]), ?_⟩
  have h := C1_heatmap_buffer_bounded_fifo.1
    [{ x := 1, y := 1, time := 0 }, { x := 2, y := 2, time := 0 }]
  simpa using h

/-- Claim C4 (counterexample): for the reset-then-track sequence of moves
(10,0), (0,0), (10,0) the code accumulates `totalDistance = 10` — the segment
leaving the recorded position (0,0) is skipped — while the claimed sum of all
consecutive Euclidean distances is 20. -/
theorem C4_distance_cex :
    (processMoves mouseStarted movesThroughOrigin).totalDistance = 10 ∧
    specConsecDistSum coordsThroughOrigin = 20 ∧ (10 : ℝ) ≠ 20 := by
  have he1 : euclid (-10) 0 = 10 := euclid_eval _ _ _ (by norm_num) (by norm_num)
  have he2 : euclid 10 0 = 10 := euclid_eval _ _ _ (by norm_num) (by norm_num)
  refine ⟨?_, ?_, by norm_num⟩
  · rw [processMoves_totalDistance movesThroughOrigin mouseStarted rfl]
    simp only [mouseStarted, mouseStartTracking, mouseInit, movesThroughOrigin, List.map]
    simp [guardedDistSum, he1]
  · simp [specConsecDistSum, coordsThroughOrigin, he1, he2]
    norm_num

/-- Claim C4 (amended): after a reset, `totalDistance` over any sequence of
moves equals the sum of consecutive Euclidean distances restricted to segments
whose starting stored position is not exactly (0,0) — so the first move
contributes nothing, and so does any move immediately following a move
recorded at (0,0). -/
theorem C4_totalDistance_guarded (s : MouseState) (l : List (ℚ × ℚ × ℕ))
    (h : s.isTracking = true) (hpos : s.lastMousePosition = (0, 0))
    (hdist : s.totalDistance = 0) :
    (processMoves s l).totalDistance =
      guardedDistSum (0, 0) (l.map fun p => (p.1, p.2.1)) := by
  rw [processMoves_totalDistance l s h, hpos, hdist, zero_add]

/-- Witness for C4 (amended): the guarded sum is realised on the concrete
through-the-origin trace. -/
theorem C4_totalDistance_guarded_witness :
    mouseStarted.isTracking = true ∧ mouseStarted.lastMousePosition = (0, 0) ∧
    mouseStarted.totalDistance = 0 ∧
    (processMoves mouseStarted movesThroughOrigin).totalDistance =
      guardedDistSum (0, 0) (movesThroughOrigin.map fun p => (p.1, p.2.1)) :=
  ⟨rfl, rfl, rfl, C4_totalDistance_guarded mouseStarted movesThroughOrigin rfl rfl rfl⟩

/-- Claim C9 (confirmed): when a recorded move lands exactly at (0,0), the
distance covered by the immediately following move is not added to
`totalDistance`: the stored last position (0,0) is treated as unset no matter
how it arose. -/
theorem C9_origin_move_skips_distance (s : MouseState) (x y : ℚ) (t₁ t₂ : ℕ)
    (h : s.isTracking = true) :
    (recordMove (recordMove s 0 0 t₁) x y t₂).totalDistance =
      (recordMove s 0 0 t₁).totalDistance := by
  have htrack : (recordMove s 0 0 t₁).isTracking = true := by
    rw [recordMove_isTracking]; exact h
  rw [recordMove_totalDistance _ x y t₂ htrack, recordMove_lastPos s 0 0 t₁ h]
  simp

/-- Witness for C9: a real move to (0,0) followed by a 10-pixel move leaves
`totalDistance` unchanged. -/
theorem C9_origin_move_skips_distance_witness :
    mouseStarted.isTracking = true ∧
    (recordMove (recordMove mouseStarted 0 0 1) 10 0 2).totalDistance =
      (recordMove mouseStarted 0 0 1).totalDistance :=
  ⟨rfl, C9_origin_move_skips_distance mouseStarted 10 0 1 2 rfl⟩

/-- On a run of identical positions every displacement vector is zero, so the
angle loop collects nothing. -/
theorem angleChanges_of_const (p : ℚ × ℚ) :
    ∀ l : List (ℚ × ℚ), (∀ q ∈ l, q = p) → angleChanges l = []
  | [] => fun _ => rfl
  | [_] => fun _ => rfl
  | [_, _] => fun _ => rfl
  | a :: b :: c :: rest => fun h => by
    have ha : a = p := h a (by simp)
    have hb : b = p := h b (by simp)
    have hc : c = p := h c (by simp)
    have hz : ¬ (0 < (b.1 - a.1) * (b.1 - a.1) + (b.2 - a.2) * (b.2 - a.2) ∧
        0 < (c.1 - b.1) * (c.1 - b.1) + (c.2 - b.2) * (c.2 - b.2)) := by
      rw [ha, hb, hc]; simp
    simp only [angleChanges]
    rw [if_neg hz, List.nil_append]
    exact angleChanges_of_const p (b :: c :: rest) fun q hq => h q (List.mem_cons_of_mem a hq)

/-- The population variance of a list of reals is nonnegative. -/
theorem listVariance_nonneg (l : List ℝ) : 0 ≤ listVariance l := by
  unfold listVariance
  apply div_nonneg
  · apply List.sum_nonneg
    intro x hx
    rcases List.mem_map.mp hx with ⟨b, _, rfl⟩
    positivity
  · positivity

/-- The square root of one hundred. -/
theorem sqrt_hundred : Real.sqrt (100 : ℝ) = 10 := by
  rw [show (100 : ℝ) = 10 ^ 2 by norm_num]
  exact Real.sqrt_sq (by norm_num)

/-- The single triple of the collinear scenario yields the angle
`arccos 1 = 0`. -/
theorem angleChanges_collinear :
    angleChanges [((0 : ℚ), (0 : ℚ)), (10, 0), (20, 0)] = [0] := by
  simp only [angleChanges]
  rw [if_pos (by norm_num)]
  norm_num [sqrt_hundred]

/-- The move positions of the collinear scenario. -/
theorem collinear3_coords :
    (mouseMoves collinear3).map (fun e => (e.x, e.y)) =
      [((0 : ℚ), (0 : ℚ)), (10, 0), (20, 0)] := rfl

/-- The variance of the one-element angle list of the collinear scenario. -/
theorem listVariance_single_zero : listVariance [(0 : ℝ)] = 0 := by
  simp [listVariance]

/-- Claim C6 (confirmed): `calculateMouseRandomness` returns the 0.1 sentinel
with fewer than 3 buffered move events; with 3 or more its value lies in
[0, 1] and — whenever at least one angle is defined, i.e. not all displacement
vectors vanish — equals `min(10 * population variance of the angles, 1)`; the
collinear scenario (0,0), (10,0), (20,0) yields exactly 0. -/
theorem C6_mouseRandomness :
    (∀ events : List MouseEv, (mouseMoves events).length < 3 →
      calculateMouseRandomness events = 0.1) ∧
    (∀ events : List MouseEv, 3 ≤ (mouseMoves events).length →
      (0 ≤ calculateMouseRandomness events ∧ calculateMouseRandomness events ≤ 1) ∧
      (angleChanges ((mouseMoves events).map fun e => (e.x, e.y)) ≠ [] →
        calculateMouseRandomness events =
          min (10 * listVariance (angleChanges ((mouseMoves events).map fun e => (e.x, e.y)))) 1)) ∧
    calculateMouseRandomness collinear3 = 0 := by
  refine ⟨?_, ?_, ?_⟩
  · intro events h
    by_cases he : events.length < 3
    · simp only [calculateMouseRandomness]; rw [if_pos he]
    · simp only [calculateMouseRandomness]; rw [if_neg he, if_pos h]
  · intro events h3
    have hle : (mouseMoves events).length ≤ events.length := by
      unfold mouseMoves; exact List.length_filter_le _ _
    have he : ¬ events.length < 3 := by omega
    have hm : ¬ (mouseMoves events).length < 3 := by omega
    by_cases hema : (angleChanges ((mouseMoves events).map fun e => (e.x, e.y))).length = 0
    · constructor
      · simp only [calculateMouseRandomness]
        rw [if_neg he, if_neg hm, if_pos hema]
        norm_num
      · intro hne
        exact absurd (List.length_eq_zero.mp hema) hne
    · constructor
      · simp only [calculateMouseRandomness]
        rw [if_neg he, if_neg hm, if_neg hema]
        constructor
        · refine le_min ?_ (by norm_num)
          exact mul_nonneg (listVariance_nonneg _) (by norm_num)
        · exact min_le_right _ _
      · intro _
        simp only [calculateMouseRandomness]
        rw [if_neg he, if_neg hm, if_neg hema, mul_comm]
  · have he : ¬ collinear3.length < 3 := by decide
    have hm : ¬ (mouseMoves collinear3).length < 3 := by decide
    simp only [calculateMouseRandomness]
    rw [if_neg he, if_neg hm, collinear3_coords, angleChanges_collinear]
    rw [if_neg (by norm_num), listVariance_single_zero, zero_mul]
    exact min_eq_left (by norm_num)

/-- Witness for C6: the collinear scenario has three move events and a
nonempty angle list, and the sentinel branch fires on the empty buffer. -/
theorem C6_mouseRandomness_witness :
    3 ≤ (mouseMoves collinear3).length ∧
    angleChanges ((mouseMoves collinear3).map fun e => (e.x, e.y)) ≠ [] ∧
    calculateMouseRandomness collinear3 =
      min (10 * listVariance (angleChanges ((mouseMoves collinear3).map fun e => (e.x, e.y)))) 1 ∧
    calculateMouseRandomness [] = 0.1 := by
  have h3 : 3 ≤ (mouseMoves collinear3).length := by decide
  have hne : angleChanges ((mouseMoves collinear3).map fun e => (e.x, e.y)) ≠ [] := by
    rw [collinear3_coords, angleChanges_collinear]
    simp
  exact ⟨h3, hne, (C6_mouseRandomness.2.1 collinear3 h3).2 hne,
    C6_mouseRandomness.1 [] (by decide)⟩

/-- Claim C10 (confirmed): with 3 or more buffered move events all at one
position, every displacement vector has zero magnitude, no angle is computed,
and `calculateMouseRandomness` returns the 0.1 sentinel rather than 0. -/
theorem C10_samePosition_sentinel (events : List MouseEv) (p : ℚ × ℚ)
    (h3 : 3 ≤ (mouseMoves events).length)
    (hsame : ∀ e ∈ mouseMoves events, (e.x, e.y) = p) :
    calculateMouseRandomness events = 0.1 := by
  have hle : (mouseMoves events).length ≤ events.length := by
    unfold mouseMoves; exact List.length_filter_le _ _
  have he : ¬ events.length < 3 := by omega
  have hm : ¬ (mouseMoves events).length < 3 := by omega
  have hangles : angleChanges ((mouseMoves events).map fun e => (e.x, e.y)) = [] := by
    apply angleChanges_of_const p
    intro q hq
    rcases List.mem_map.mp hq with ⟨e, he', rfl⟩
    exact hsame e he'
  simp only [calculateMouseRandomness]
  rw [if_neg he, if_neg hm, hangles]
  simp

/-- Witness for C10: three moves all at (5,5) produce the sentinel 0.1. -/
theorem C10_samePosition_sentinel_witness :
    3 ≤ (mouseMoves samePos3).length ∧
    (∀ e ∈ mouseMoves samePos3, (e.x, e.y) = ((5 : ℚ), (5 : ℚ))) ∧
    calculateMouseRandomness samePos3 = 0.1 :=
  ⟨by decide, by decide,
    C10_samePosition_sentinel samePos3 (5, 5) (by decide) (by decide)⟩

/-- Claim C8 (confirmed): on every buffer whose click events never carry the
(unreachable) pressure value 0, `calculateAveragePressure` is the arithmetic
mean of the pressures carried by the click events, and it is the neutral 1.0
whenever no click event carries a pressure.  Every recorded click carries
pressure `0.8 + rand * variation > 0`, so the hypothesis holds on all
reachable buffers; the function is total, so it never fails. -/
theorem C8_averagePressure (events : List MouseEv)
    (h : ∀ e ∈ events, e.eventType = .click → e.pressure ≠ some 0) :
    calculateAveragePressure events = specAveragePressure events ∧
    ((∀ e ∈ events, e.eventType = .click → e.pressure = none) →
      calculateAveragePressure events = 1) := by
  have hfilt : events.filter (fun e => e.eventType = .click ∧ pressureTruthy e) =
      events.filter (fun e => e.eventType = .click ∧ e.pressure ≠ none) := by
    apply List.filter_congr
    intro e he
    by_cases hc : e.eventType = .click
    · cases hp : e.pressure with
      | none => simp [pressureTruthy, hp]
      | some q =>
        have hq : q ≠ 0 := by
          intro h0
          exact h e he hc (by rw [hp, h0])
        simp [pressureTruthy, hp, hq]
    · simp [hc]
  constructor
  · rw [calculateAveragePressure, specAveragePressure, hfilt]
  · intro hnone
    have hempty : events.filter (fun e => e.eventType = .click ∧ pressureTruthy e) = [] := by
      rw [List.filter_eq_nil_iff]
      intro e he
      by_cases hc : e.eventType = .click
      · have := hnone e he hc
        simp [pressureTruthy, this]
      · simp [hc]
    rw [calculateAveragePressure, hempty]
    rfl

/-- Witness for C8: two clicks with pressures 9/10 and 7/10 (and a move in
between) average to 4/5. -/
theorem C8_averagePressure_witness :
    (∀ e ∈ twoClicks, e.eventType = .click → e.pressure ≠ some 0) ∧
    calculateAveragePressure twoClicks = specAveragePressure twoClicks ∧
    calculateAveragePressure twoClicks = 4 / 5 := by
  have h : ∀ e ∈ twoClicks, e.eventType = .click → e.pressure ≠ some 0 := by
    norm_num [twoClicks]
    exact fun hmc => absurd hmc (by decide)
  refine ⟨h, (C8_averagePressure twoClicks h).1, ?_⟩
  norm_num [calculateAveragePressure, twoClicks, pressureTruthy, List.filter]

/-- Claim C2 (counterexample): start, one keydown, pause, start again — the
claim says the second start (from Paused) preserves `totalKeyPresses = 1`, but
`startTracking()` always clears, so it is 0 afterwards. -/
theorem C2_resume_clears_cex :
    appPaused.keyboard.totalKeyPresses = 1 ∧
    appResumed.keyboard.totalKeyPresses = 0 ∧ (1 : ℕ) ≠ 0 :=
  ⟨rfl, rfl, by norm_num⟩

/-- Claim C2 (amended): a Start press while not monitoring — whether the
session is Idle or Paused — clears the buffers and zeroes the counters of
every tracker whose checkbox is enabled; accumulated data survives `pause()`
only until the next start. -/
theorem C2_start_clears_when_inactive (s : AppState) (t : ℕ)
    (hmon : s.isMonitoring = false) (hk : s.trackKeyboard = true)
    (hm : s.trackMouse = true) :
    (startMonitoring s t).keyboard.keyEvents = [] ∧
    (startMonitoring s t).keyboard.totalKeyPresses = 0 ∧
    (startMonitoring s t).keyboard.backspaceCount = 0 ∧
    (startMonitoring s t).mouse.mouseEvents = [] ∧
    (startMonitoring s t).mouse.clickCount = 0 ∧
    (startMonitoring s t).mouse.totalDistance = 0 := by
  simp [startMonitoring, hmon, hk, hm, kbStartTracking, mouseStartTracking]

/-- Witness for C2: starting from the concrete paused trace state (which holds
one key press) yields zeroed counters and empty buffers. -/
theorem C2_start_clears_when_inactive_witness :
    appPaused.isMonitoring = false ∧ appPaused.trackKeyboard = true ∧
    appPaused.trackMouse = true ∧
    (startMonitoring appPaused 200).keyboard.totalKeyPresses = 0 ∧
    (startMonitoring appPaused 200).keyboard.keyEvents = [] :=
  ⟨rfl, rfl, rfl,
    (C2_start_clears_when_inactive appPaused 200 rfl rfl rfl).2.1,
    (C2_start_clears_when_inactive appPaused 200 rfl rfl rfl).1⟩

/-- Witness for C7: two presses over one second (24 WPM) against three presses
over the same second (36 WPM). -/
theorem C7_typingSpeed_monotone_witness :
    firstTs (kbDowns kbTwoDowns) = firstTs (kbDowns kbThreeDowns) ∧
    lastTs (kbDowns kbTwoDowns) = lastTs (kbDowns kbThreeDowns) ∧
    (kbDowns kbTwoDowns).length ≤ (kbDowns kbThreeDowns).length ∧
    (firstTs (kbDowns kbThreeDowns)).getD 0 ≤ (lastTs (kbDowns kbThreeDowns)).getD 0 ∧
    calculateTypingSpeed kbTwoDowns ≤ calculateTypingSpeed kbThreeDowns :=
  ⟨by decide, by decide, by decide, by decide,
    C7_typingSpeed_monotone kbTwoDowns kbThreeDowns (by decide) (by decide)
      (by decide) (by decide)⟩

end HumanStress
